import Mathlib

/-!
Shallow embedding of the TheraSage backend2 crisis pipeline.

The definitions below are translated from the Python source:
* `backend2/ai_agent.py` — the comprehensive analysis node, the context
  depth tracker, the intelligent routing function, and the metadata dict
  returned by `process_user_message`;
* `backend2/crisis_alert_manager.py` — crisis type determination, risk
  level calculation, and the automatic therapist assignment engine;
* `backend2/routes/crisis.py` — the acknowledge / escalate / resolve
  route handlers for crisis alerts.

Float scores from the source (specialization match, assignment score) are
modelled as rationals; DB-backed quantities (per-therapist workload counts,
specialization tag lists, session message counts) enter as explicit
parameters.  Python exceptions are modelled with `Except`, `None` with
`Option`, and dict keys recorded in `response_actions` as a list of key
names.
-/

namespace TheraSage

/-- The structured assessment produced by the Risk Assessor
(`_comprehensive_analysis` in `backend2/ai_agent.py`): the fields of the
JSON object the analysis prompt demands. -/
structure Analysis where
  emotional_state : String
  urgency_level : Int
  main_concerns : List String
  cognitive_distortions : List String
  risk_score : Int
  risk_factors : List String
  immediate_action_needed : Bool
  conversation_needs : String
  response_tone : String
deriving DecidableEq, Repr

/-- `_intelligent_routing` (`backend2/ai_agent.py`): the crisis check comes
first (`risk_score >= 7 or immediate_action or risk_factors`), then the CBT
branch on a non-empty cognitive-distortion list, else the regular
supportive response. -/
def intelligent_routing (a : Analysis) : String :=
  if 7 ≤ a.risk_score ∨ a.immediate_action_needed = true ∨ a.risk_factors ≠ [] then
    "crisis"
  else if a.cognitive_distortions ≠ [] then
    "cbt"
  else
    "respond"

/-- `_check_context_depth` (`backend2/ai_agent.py`): classify the session's
total message count. -/
def check_context_depth (message_count : Nat) : String :=
  if message_count < 3 then "shallow"
  else if message_count < 8 then "moderate"
  else "deep"

/-- The ordering shallow < moderate < deep, used to state monotonicity of
the context depth tracker. -/
def depth_rank (d : String) : Nat :=
  if d = "shallow" then 0
  else if d = "moderate" then 1
  else 2

/-- The slice of the metadata dict returned by `process_user_message`
(`backend2/ai_agent.py`) that the claims constrain. -/
structure ProcessResult where
  intervention_type : String
  crisis_detected : Bool
  crisis_alert_id : Option String
deriving DecidableEq, Repr

/-- The return dict of `process_user_message`: `crisis_detected` is
computed there as `analysis.get("risk_score", 0) >= 7`, independently of
which branch the router took. -/
def process_user_message_result (analysis : Analysis) (intervention : String)
    (alert_id : Option String) : ProcessResult :=
  { intervention_type := intervention
    crisis_detected := decide (7 ≤ analysis.risk_score)
    crisis_alert_id := alert_id }

/-- An assessment with no risk score, no risk factors and no distortions,
but with the immediate-action flag set. -/
def immediate_only_analysis : Analysis :=
  { emotional_state := "stressed"
    urgency_level := 3
    main_concerns := []
    cognitive_distortions := []
    risk_score := 0
    risk_factors := []
    immediate_action_needed := true
    conversation_needs := "support"
    response_tone := "encouraging" }

/-- An entirely calm assessment: nothing set. -/
def calm_analysis : Analysis :=
  { emotional_state := "neutral"
    urgency_level := 1
    main_concerns := []
    cognitive_distortions := []
    risk_score := 0
    risk_factors := []
    immediate_action_needed := false
    conversation_needs := "support"
    response_tone := "encouraging" }

/-- An assessment whose only trigger is a non-empty risk-factor list:
risk score stays below 7. -/
def factors_only_analysis : Analysis :=
  { emotional_state := "sad"
    urgency_level := 4
    main_concerns := ["general stress"]
    cognitive_distortions := []
    risk_score := 3
    risk_factors := ["hopelessness"]
    immediate_action_needed := false
    conversation_needs := "support"
    response_tone := "gentle" }

/-- Python's substring test `pat in s` on lists of characters: `pat` is a
prefix of some suffix of `s`. -/
def chars_contain (pat : List Char) : List Char → Bool
  | [] => pat.isEmpty
  | c :: cs => pat.isPrefixOf (c :: cs) || chars_contain pat cs

/-- Python's substring test `pat in s` on strings. -/
def str_contains (s pat : String) : Bool :=
  chars_contain pat.data s.data

/-- Python's `any(word in text for word in words)`. -/
def any_keyword (text : String) (words : List String) : Bool :=
  words.any (fun w => str_contains text w)

/-- Python's `str.lower()`, character by character. -/
def py_lower (s : String) : String :=
  String.mk (s.data.map Char.toLower)

/-- The `CrisisType` enum of `backend2/models.py`. -/
inductive CrisisType where
  | SUICIDE_IDEATION
  | SELF_HARM
  | ANXIETY_PANIC
  | SUBSTANCE_ABUSE
  | EATING_DISORDER
  | SEVERE_DEPRESSION
deriving DecidableEq, Repr

/-- `" ".join(risk_factors + main_concerns).lower()` from
`_determine_crisis_type` (`backend2/crisis_alert_manager.py`). -/
def factors_text (risk_factors main_concerns : List String) : String :=
  py_lower (String.intercalate " " (risk_factors ++ main_concerns))

def suicide_words : List String := ["suicide", "kill", "death", "die", "end it all"]

def self_harm_words : List String := ["cut", "hurt myself", "self-harm", "harm myself"]

def panic_words : List String := ["panic", "anxiety attack", "can\x27t breathe"]

def substance_words : List String := ["drugs", "alcohol", "substance", "drinking"]

def eating_words : List String := ["eating", "food", "weight", "starving"]

/-- `_determine_crisis_type` (`backend2/crisis_alert_manager.py`): the
if/elif chain over the lowercased concatenation of risk factors and main
concerns. -/
def determine_crisis_type (risk_factors main_concerns : List String) : CrisisType :=
  let t := factors_text risk_factors main_concerns
  if any_keyword t suicide_words then CrisisType.SUICIDE_IDEATION
  else if any_keyword t self_harm_words then CrisisType.SELF_HARM
  else if any_keyword t panic_words then CrisisType.ANXIETY_PANIC
  else if any_keyword t substance_words then CrisisType.SUBSTANCE_ABUSE
  else if any_keyword t eating_words then CrisisType.EATING_DISORDER
  else CrisisType.SEVERE_DEPRESSION

/-- A generic first-match combinator over an ordered priority table: the
first keyword group with a hit wins, with a default when none match. -/
def first_match (text : String) : List (List String × CrisisType) → CrisisType → CrisisType
  | [], dflt => dflt
  | (ws, ct) :: rest, dflt =>
      if any_keyword text ws then ct else first_match text rest dflt

/-- The spec's fixed priority order: suicide ideation, then self-harm, then
panic/anxiety, then substance, then eating disorder. -/
def crisis_type_priority : List (List String × CrisisType) :=
  [(suicide_words, CrisisType.SUICIDE_IDEATION),
   (self_harm_words, CrisisType.SELF_HARM),
   (panic_words, CrisisType.ANXIETY_PANIC),
   (substance_words, CrisisType.SUBSTANCE_ABUSE),
   (eating_words, CrisisType.EATING_DISORDER)]

/-- Modelled from the spec sentence "first-match keyword priority …
checked in this fixed order (first match wins, no scoring) … otherwise →
SEVERE_DEPRESSION (default)": the first-match combinator instantiated with
the priority table. -/
def determine_crisis_type_spec (risk_factors main_concerns : List String) : CrisisType :=
  first_match (factors_text risk_factors main_concerns) crisis_type_priority
    CrisisType.SEVERE_DEPRESSION

/-- The `RiskLevel` enum of `backend2/models.py`. -/
inductive RiskLevel where
  | LOW
  | MEDIUM
  | HIGH
  | CRITICAL
deriving DecidableEq, Repr

/-- The ordering LOW < MEDIUM < HIGH < CRITICAL. -/
def risk_rank : RiskLevel → Nat
  | RiskLevel.LOW => 0
  | RiskLevel.MEDIUM => 1
  | RiskLevel.HIGH => 2
  | RiskLevel.CRITICAL => 3

/-- The base thresholds of `_calculate_risk_level`
(`backend2/crisis_alert_manager.py`). -/
def base_risk_level (risk_score : Int) : RiskLevel :=
  if 9 ≤ risk_score then RiskLevel.CRITICAL
  else if 7 ≤ risk_score then RiskLevel.HIGH
  else if 4 ≤ risk_score then RiskLevel.MEDIUM
  else RiskLevel.LOW

/-- The immediate-action escalation of `_calculate_risk_level`:
MEDIUM → HIGH, LOW → MEDIUM, others unchanged. -/
def escalate_immediate : RiskLevel → RiskLevel
  | RiskLevel.MEDIUM => RiskLevel.HIGH
  | RiskLevel.LOW => RiskLevel.MEDIUM
  | r => r

def high_risk_indicators : List String :=
  ["suicide", "kill", "death", "hurt myself", "end it all"]

/-- The indicator escalation of `_calculate_risk_level`: LOW or MEDIUM is
forced to HIGH, others unchanged. -/
def escalate_indicator : RiskLevel → RiskLevel
  | RiskLevel.LOW => RiskLevel.HIGH
  | RiskLevel.MEDIUM => RiskLevel.HIGH
  | r => r

/-- `_calculate_risk_level` (`backend2/crisis_alert_manager.py`): base
thresholds, then the immediate-action bump, then the high-severity keyword
escalation over the lowercased joined risk factors. -/
def calculate_risk_level (risk_score : Int) (risk_factors : List String)
    (analysis : Analysis) : RiskLevel :=
  let base := base_risk_level risk_score
  let base1 := if analysis.immediate_action_needed then escalate_immediate base else base
  if any_keyword (py_lower (String.intercalate " " risk_factors)) high_risk_indicators then
    escalate_indicator base1
  else base1

/-- C2: crisis-type determination equals first-match keyword priority over
the fixed table (suicide ideation, self-harm, panic, substance, eating
disorder, default SEVERE_DEPRESSION), and an input containing both
"kill myself" and "cutting" classifies as SUICIDE_IDEATION. -/
theorem crisis_type_first_match (risk_factors main_concerns : List String) :
    determine_crisis_type risk_factors main_concerns =
      determine_crisis_type_spec risk_factors main_concerns ∧
    determine_crisis_type ["kill myself", "cutting"] [] =
      CrisisType.SUICIDE_IDEATION := by
  exact ⟨rfl, by decide⟩

/-- C3: the base risk level follows the thresholds 9/7/4 exactly, the two
escalation overrides can only raise the level (the final level is at least
the base level under LOW < MEDIUM < HIGH < CRITICAL), and a high-severity
keyword in the risk factors forces the final level to at least HIGH. -/
theorem risk_level_thresholds_monotone (s : Int) (risk_factors : List String)
    (a : Analysis) :
    (9 ≤ s → base_risk_level s = RiskLevel.CRITICAL) ∧
    (7 ≤ s → s < 9 → base_risk_level s = RiskLevel.HIGH) ∧
    (4 ≤ s → s < 7 → base_risk_level s = RiskLevel.MEDIUM) ∧
    (s < 4 → base_risk_level s = RiskLevel.LOW) ∧
    risk_rank (base_risk_level s) ≤ risk_rank (calculate_risk_level s risk_factors a) ∧
    (any_keyword (py_lower (String.intercalate " " risk_factors)) high_risk_indicators = true →
      risk_rank RiskLevel.HIGH ≤ risk_rank (calculate_risk_level s risk_factors a)) := by
  have himm : ∀ b, risk_rank b ≤ risk_rank (escalate_immediate b) := by
    intro b; cases b <;> decide
  have hind : ∀ b, risk_rank b ≤ risk_rank (escalate_indicator b) := by
    intro b; cases b <;> decide
  have hhigh : ∀ b, risk_rank RiskLevel.HIGH ≤ risk_rank (escalate_indicator b) := by
    intro b; cases b <;> decide
  have hmono : risk_rank (base_risk_level s) ≤
      risk_rank (calculate_risk_level s risk_factors a) := by
    unfold calculate_risk_level
    cases hia : a.immediate_action_needed <;>
      cases hkw : any_keyword (py_lower (String.intercalate " " risk_factors))
        high_risk_indicators <;>
      simp [hia, hkw] <;>
      first
        | exact hind _
        | exact himm _
        | exact le_trans (himm _) (hind _)
  have hkwthm : any_keyword (py_lower (String.intercalate " " risk_factors))
      high_risk_indicators = true →
      risk_rank RiskLevel.HIGH ≤ risk_rank (calculate_risk_level s risk_factors a) := by
    intro hkw
    unfold calculate_risk_level
    cases hia : a.immediate_action_needed <;> simp [hia, hkw] <;> exact hhigh _
  refine ⟨fun h => by unfold base_risk_level; rw [if_pos h],
    fun h1 h2 => by unfold base_risk_level; rw [if_neg (by omega), if_pos h1],
    fun h1 h2 => by unfold base_risk_level; rw [if_neg (by omega), if_neg (by omega), if_pos h1],
    fun h => by
      unfold base_risk_level
      rw [if_neg (by omega), if_neg (by omega), if_neg (by omega)],
    hmono, hkwthm⟩

/-- C1: the Decision Router returns "crisis" exactly when risk_score ≥ 7 or
immediate_action_needed is true or risk_factors is non-empty; in
particular, whenever risk_score ≥ 7 the output is "crisis" regardless of
the cognitive distortions, since the crisis check is evaluated before the
cbt and respond branches. -/
theorem routing_crisis_priority (a : Analysis) :
    (intelligent_routing a = "crisis" ↔
      (7 ≤ a.risk_score ∨ a.immediate_action_needed = true ∨ a.risk_factors ≠ [])) ∧
    (7 ≤ a.risk_score → intelligent_routing a = "crisis") := by
  unfold intelligent_routing
  by_cases h : 7 ≤ a.risk_score ∨ a.immediate_action_needed = true ∨ a.risk_factors ≠ []
  · simp [h]
  · rw [if_neg h]
    constructor
    · constructor
      · intro hcr
        by_cases hd : a.cognitive_distortions ≠ [] <;> simp [hd] at hcr
      · intro hc
        exact absurd hc h
    · intro hs
      exact absurd (Or.inl hs) h

/-- C8 counterexample: a concrete assessment with risk_score < 4, empty
risk_factors and empty cognitive_distortions whose routing is not
"respond" (the immediate-action flag sends it to the crisis branch). -/
theorem routing_respond_claim_cex :
    immediate_only_analysis.risk_score < 4 ∧
    immediate_only_analysis.risk_factors = [] ∧
    immediate_only_analysis.cognitive_distortions = [] ∧
    intelligent_routing immediate_only_analysis ≠ "respond" := by
  refine ⟨by decide, rfl, rfl, ?_⟩
  decide

/-- C8 amended: with risk_score < 4, empty risk_factors, empty
cognitive_distortions and immediate_action_needed false, the Decision
Router output is "respond". -/
theorem routing_respond_low_risk (a : Analysis) (h1 : a.risk_score < 4)
    (h2 : a.risk_factors = []) (h3 : a.cognitive_distortions = [])
    (h4 : a.immediate_action_needed = false) :
    intelligent_routing a = "respond" := by
  unfold intelligent_routing
  rw [if_neg, if_neg]
  · simp [h3]
  · push_neg
    exact ⟨by omega, by simp [h4], by simp [h2]⟩

/-- C8 amended, checked at a concrete calm assessment. -/
theorem routing_respond_low_risk_witness :
    intelligent_routing calm_analysis = "respond" :=
  routing_respond_low_risk calm_analysis (by decide) rfl rfl rfl

/-- C9: the context depth tracker has exact boundaries at 3 and 8
(n < 3 → shallow, 3 ≤ n < 8 → moderate, 8 ≤ n → deep) and is monotonic in
the message count under shallow < moderate < deep. -/
theorem context_depth_boundaries_monotone (n : Nat) :
    (n < 3 → check_context_depth n = "shallow") ∧
    (3 ≤ n → n < 8 → check_context_depth n = "moderate") ∧
    (8 ≤ n → check_context_depth n = "deep") ∧
    depth_rank (check_context_depth n) ≤ depth_rank (check_context_depth (n + 1)) := by
  unfold check_context_depth
  refine ⟨fun h => by rw [if_pos h], fun h1 h2 => by rw [if_neg (by omega), if_pos h2],
    fun h => by rw [if_neg (by omega), if_neg (by omega)], ?_⟩
  split_ifs <;> simp [depth_rank] <;> omega

/-- C10: in the result of `process_user_message`, `crisis_detected` is true
exactly when risk_score ≥ 7; a turn routed to the crisis branch only
because its risk-factor list is non-empty (risk_score < 7) is reported
with `crisis_detected = false`. -/
theorem crisis_detected_iff_high_score (a : Analysis) (intervention : String)
    (alert_id : Option String) :
    ((process_user_message_result a intervention alert_id).crisis_detected = true ↔
      7 ≤ a.risk_score) ∧
    (intelligent_routing factors_only_analysis = "crisis" ∧
      (process_user_message_result factors_only_analysis "crisis_escalation"
        (some "alert-1")).crisis_detected = false) := by
  refine ⟨?_, by decide, by decide⟩
  simp [process_user_message_result]

/-- The hard-coded fallback analysis of `_comprehensive_analysis`
(`backend2/ai_agent.py`), installed when `json.loads` on the model reply
raises. -/
def fallback_analysis : Analysis :=
  { emotional_state := "stressed"
    urgency_level := 3
    main_concerns := ["general stress"]
    cognitive_distortions := []
    risk_score := 0
    risk_factors := []
    immediate_action_needed := false
    conversation_needs := "support"
    response_tone := "encouraging" }

/-- The analysis step of `_comprehensive_analysis` (`backend2/ai_agent.py`).
The input is the outcome of `self.llm.ainvoke`: `Except.error e` when the
service call raises (`OpenRouterClient.ainvoke` raises on any non-200
status, and that call sits before the `try` block), `Except.ok none` when
the call returned text that `json.loads` cannot parse, and
`Except.ok (some a)` when parsing succeeds.  Only the parse step is inside
the `try`, so a service error propagates; a parse error is replaced by the
fallback analysis. -/
def comprehensive_analysis (service_response : Except String (Option Analysis)) :
    Except String Analysis :=
  match service_response with
  | Except.error e => Except.error e
  | Except.ok (some a) => Except.ok a
  | Except.ok none => Except.ok fallback_analysis

/-- The fallback dict substituted by `process_user_message`
(`backend2/ai_agent.py`) when the LangGraph workflow raises: it carries
only these five analysis keys — no `risk_score`, no `conversation_needs`. -/
def workflow_error_analysis_keys : List String :=
  ["emotional_state", "urgency_level", "main_concerns",
   "cognitive_distortions", "risk_factors"]

/-- C5 counterexample: on a concrete service-call error the Risk Assessor
does not return the low-severity default — the exception propagates out of
`_comprehensive_analysis` (the `ainvoke` call precedes the `try` block). -/
theorem analysis_service_error_propagates_cex :
    comprehensive_analysis
        (Except.error "OpenRouter API error: 500 - upstream unavailable") =
      Except.error "OpenRouter API error: 500 - upstream unavailable" ∧
    (comprehensive_analysis
        (Except.error "OpenRouter API error: 500 - upstream unavailable")).isOk
      = false := by
  exact ⟨rfl, rfl⟩

/-- C5 amended: when the model reply cannot be parsed as the expected JSON,
the Risk Assessor returns the deterministic low-severity default
(risk_score 0, urgency_level 3, conversation_needs "support", empty
risk_factors) and no exception propagates; a service-call error, however,
propagates out of the Risk Assessor unchanged (it is caught only by the
workflow-level handler in `process_user_message`, which substitutes a
minimal analysis dict lacking the risk_score and conversation_needs keys). -/
theorem analysis_parse_failure_default (e : String) :
    comprehensive_analysis (Except.ok none) = Except.ok fallback_analysis ∧
    fallback_analysis.risk_score = 0 ∧
    fallback_analysis.urgency_level = 3 ∧
    fallback_analysis.conversation_needs = "support" ∧
    fallback_analysis.risk_factors = [] ∧
    comprehensive_analysis (Except.error e) = Except.error e ∧
    ("risk_score" ∈ workflow_error_analysis_keys ∨
      "conversation_needs" ∈ workflow_error_analysis_keys) = False := by
  refine ⟨rfl, rfl, rfl, rfl, rfl, rfl, ?_⟩
  simp only [eq_iff_iff, iff_false]
  decide

/-- The status values a `CrisisAlert` row moves through
(`backend2/routes/crisis.py` stores them as strings). -/
inductive AlertStatus where
  | pending
  | acknowledged
  | escalated
  | resolved
deriving DecidableEq, Repr

/-- The slice of the `CrisisAlert` model (`backend2/models.py`) that the
route handlers and the assignment engine read and write.  Timestamps are
abstract `Nat` instants; `response_actions` records the keys written into
that JSON dict. -/
structure CrisisAlertRec where
  crisis_type : CrisisType
  risk_level : RiskLevel
  status : AlertStatus
  assigned_therapist_id : Option String
  human_reviewer_id : Option String
  acknowledged_at : Option Nat
  resolved_at : Option Nat
  resolution_notes : Option String
  escalated_to_human : Bool
  response_actions : List String
deriving DecidableEq, Repr

/-- `acknowledge_crisis_alert` (`backend2/routes/crisis.py`): only a
pending alert can be acknowledged; any other status is rejected with a 400
error. -/
def acknowledge_crisis_alert (alert : CrisisAlertRec) (therapist_id : String)
    (now : Nat) : Except String CrisisAlertRec :=
  if alert.status ≠ AlertStatus.pending then
    Except.error "Alert already acknowledged"
  else
    Except.ok { alert with
      status := AlertStatus.acknowledged
      acknowledged_at := some now
      assigned_therapist_id := some therapist_id
      human_reviewer_id := some therapist_id }

/-- `escalate_crisis_alert` (`backend2/routes/crisis.py`): only a pending
or acknowledged alert can be escalated; the handler replaces
`response_actions` with the four escalation keys. -/
def escalate_crisis_alert (alert : CrisisAlertRec) (now : Nat) :
    Except String CrisisAlertRec :=
  if alert.status ≠ AlertStatus.pending ∧ alert.status ≠ AlertStatus.acknowledged then
    Except.error "Cannot escalate resolved alert"
  else
    Except.ok { alert with
      status := AlertStatus.escalated
      escalated_to_human := true
      response_actions :=
        ["escalated_at", "escalation_reason", "urgency_level", "recommended_actions"] }

/-- `resolve_crisis_alert` (`backend2/routes/crisis.py`): the handler has
no status guard at all — it unconditionally sets status, timestamp and
notes, and appends the three resolution keys to `response_actions`. -/
def resolve_crisis_alert (alert : CrisisAlertRec) (notes : String) (now : Nat) :
    Except String CrisisAlertRec :=
  Except.ok { alert with
    status := AlertStatus.resolved
    resolved_at := some now
    resolution_notes := some notes
    response_actions :=
      alert.response_actions ++ ["resolved_at", "resolution_method", "follow_up_needed"] }

/-- A concrete alert that has already been resolved. -/
def already_resolved_alert : CrisisAlertRec :=
  { crisis_type := CrisisType.SEVERE_DEPRESSION
    risk_level := RiskLevel.MEDIUM
    status := AlertStatus.resolved
    assigned_therapist_id := some "t1"
    human_reviewer_id := some "t1"
    acknowledged_at := some 1
    resolved_at := some 2
    resolution_notes := some "first resolution"
    escalated_to_human := false
    response_actions := [] }

/-- C6 counterexample: re-resolving an already resolved alert is not
rejected — the handler succeeds and overwrites the resolution timestamp
and notes, so the rejected-attempt-leaves-state-unchanged claim fails on
the resolve transition. -/
theorem resolve_after_resolved_succeeds_cex :
    resolve_crisis_alert already_resolved_alert "second resolution" 9 =
      Except.ok { already_resolved_alert with
        resolved_at := some 9
        resolution_notes := some "second resolution"
        response_actions := ["resolved_at", "resolution_method", "follow_up_needed"] } ∧
    (resolve_crisis_alert already_resolved_alert "second resolution" 9).isOk = true := by
  exact ⟨rfl, rfl⟩

/-- C6 amended: once an alert is resolved, acknowledge and escalate
attempts are rejected with explicit errors surfaced to the caller, leaving
the alert unchanged; a repeated resolve, however, is not rejected — it
succeeds again and overwrites the resolution timestamp, the notes and the
resolution keys of `response_actions`. -/
theorem resolved_blocks_ack_escalate (alert : CrisisAlertRec)
    (h : alert.status = AlertStatus.resolved) (tid notes : String) (now : Nat) :
    acknowledge_crisis_alert alert tid now = Except.error "Alert already acknowledged" ∧
    escalate_crisis_alert alert now = Except.error "Cannot escalate resolved alert" ∧
    resolve_crisis_alert alert notes now = Except.ok { alert with
      status := AlertStatus.resolved
      resolved_at := some now
      resolution_notes := some notes
      response_actions :=
        alert.response_actions ++ ["resolved_at", "resolution_method", "follow_up_needed"] } := by
  refine ⟨?_, ?_, rfl⟩
  · unfold acknowledge_crisis_alert
    rw [if_pos]
    rw [h]
    decide
  · unfold escalate_crisis_alert
    rw [if_pos]
    rw [h]
    exact ⟨by decide, by decide⟩

/-- C6 amended, checked on the concrete resolved alert. -/
theorem resolved_blocks_ack_escalate_witness :
    acknowledge_crisis_alert already_resolved_alert "t2" 9 =
      Except.error "Alert already acknowledged" ∧
    escalate_crisis_alert already_resolved_alert 9 =
      Except.error "Cannot escalate resolved alert" ∧
    resolve_crisis_alert already_resolved_alert "again" 9 =
      Except.ok { already_resolved_alert with
        status := AlertStatus.resolved
        resolved_at := some 9
        resolution_notes := some "again"
        response_actions := already_resolved_alert.response_actions ++
          ["resolved_at", "resolution_method", "follow_up_needed"] } :=
  resolved_blocks_ack_escalate already_resolved_alert rfl "t2" "again" 9

/-- The `TherapistRole` enum of `backend2/models.py`. -/
inductive TherapistRole where
  | COUNSELOR
  | PSYCHOLOGIST
  | PSYCHIATRIST
  | CRISIS_SPECIALIST
  | SUPERVISOR
deriving DecidableEq, Repr

/-- The slice of the `Therapist` model (`backend2/models.py`) read by the
assignment engine; `specializations` is the tag list after the JSON/comma
parsing step of `_calculate_specialization_match`. -/
structure TherapistRec where
  id : String
  name : String
  role : TherapistRole
  specializations : List String
deriving DecidableEq, Repr

/-- One eligible candidate of `_assign_best_available_therapist`: a
therapist of the user's college with status ACTIVE or BUSY, together with
the two workload counts the engine queries for them. -/
structure TherapistCandidate where
  therapist : TherapistRec
  active_crisis_count : Nat
  active_session_count : Nat
deriving DecidableEq, Repr

/-- The crisis-type → keyword table of `_calculate_specialization_match`
(`backend2/crisis_alert_manager.py`). -/
def crisis_match_words : CrisisType → List String
  | CrisisType.SUICIDE_IDEATION => ["suicide", "crisis", "emergency", "ideation"]
  | CrisisType.SELF_HARM => ["self-harm", "cutting", "trauma", "crisis"]
  | CrisisType.SEVERE_DEPRESSION => ["depression", "mood", "cognitive", "therapy"]
  | CrisisType.ANXIETY_PANIC => ["anxiety", "panic", "phobia", "stress"]
  | CrisisType.SUBSTANCE_ABUSE => ["substance", "addiction", "recovery", "abuse"]
  | CrisisType.EATING_DISORDER => ["eating", "body", "nutrition", "disorder"]

/-- `_calculate_specialization_match` (`backend2/crisis_alert_manager.py`):
one point per crisis keyword found in the lowercased joined tags, plus 0.5
for general crisis experience and 0.3 for CBT when distortions were
detected.  Python floats are modelled as rationals. -/
def calculate_specialization_match (t : TherapistRec) (ct : CrisisType)
    (analysis : Analysis) : ℚ :=
  let text := py_lower (String.intercalate " " t.specializations)
  let score : ℚ := ((crisis_match_words ct).filter (fun k => str_contains text k)).length
  let score := if any_keyword text ["crisis", "emergency", "trauma"] then score + 1/2 else score
  if analysis.cognitive_distortions ≠ [] ∧ str_contains text "cbt" = true then
    score + 3/10
  else score

/-- The role-priority preference of `_assign_best_available_therapist`:
for HIGH/CRITICAL alerts a crisis specialist gets 3 and a psychologist or
psychiatrist 2; everyone else (and every role on lower-risk alerts)
gets 1. -/
def role_priority (risk_level : RiskLevel) (role : TherapistRole) : Nat :=
  if risk_level = RiskLevel.HIGH ∨ risk_level = RiskLevel.CRITICAL then
    if role = TherapistRole.CRISIS_SPECIALIST then 3
    else if role = TherapistRole.PSYCHOLOGIST ∨ role = TherapistRole.PSYCHIATRIST then 2
    else 1
  else 1

/-- `total_workload = active_crisis_count * 2 + active_session_count`. -/
def total_workload (c : TherapistCandidate) : Nat :=
  c.active_crisis_count * 2 + c.active_session_count

/-- `assignment_score = total_workload - specialization_score * role_priority`
(lower is better). -/
def assignment_score (risk_level : RiskLevel) (ct : CrisisType)
    (analysis : Analysis) (c : TherapistCandidate) : ℚ :=
  (total_workload c : ℚ) -
    calculate_specialization_match c.therapist ct analysis *
      (role_priority risk_level c.therapist.role : ℚ)

/-- Insert `x` into `l` before the first element of strictly greater key:
the insertion step of a stable insertion sort, modelling Python's stable
`list.sort(key=...)`. -/
def ordered_insert {α : Type} (f : α → ℚ) (x : α) : List α → List α
  | [] => [x]
  | y :: ys => if f x ≤ f y then x :: y :: ys else y :: ordered_insert f x ys

/-- Stable sort by key, modelling `therapist_workloads.sort(key=...)`. -/
def sort_by_score {α : Type} (f : α → ℚ) : List α → List α
  | [] => []
  | x :: xs => ordered_insert f x (sort_by_score f xs)

/-- The earliest element of the list attaining the minimal key. -/
def first_argmin {α : Type} (f : α → ℚ) : List α → Option α
  | [] => none
  | x :: xs =>
      match first_argmin f xs with
      | none => some x
      | some y => if f x ≤ f y then some x else some y

theorem head_ordered_insert {α : Type} (f : α → ℚ) (x : α) (l : List α) :
    (ordered_insert f x l).head? =
      some (match l.head? with
            | none => x
            | some y => if f x ≤ f y then x else y) := by
  cases l with
  | nil => rfl
  | cons y ys =>
    simp only [ordered_insert, List.head?_cons]
    split <;> simp

theorem sort_head_eq_first_argmin {α : Type} (f : α → ℚ) (l : List α) :
    (sort_by_score f l).head? = first_argmin f l := by
  induction l with
  | nil => rfl
  | cons x xs ih =>
    cases h : first_argmin f xs with
    | none =>
      simp only [sort_by_score, head_ordered_insert, ih, h, first_argmin]
    | some y =>
      simp only [sort_by_score, head_ordered_insert, ih, h, first_argmin]
      split <;> rfl

theorem first_argmin_cons_eq_some {α : Type} (f : α → ℚ) (c : α) (rest : List α) :
    ∃ b, first_argmin f (c :: rest) = some b := by
  simp only [first_argmin]
  cases first_argmin f rest with
  | none => exact ⟨c, rfl⟩
  | some y =>
    by_cases h : f c ≤ f y
    · exact ⟨c, by simp [h]⟩
    · exact ⟨y, by simp [h]⟩

theorem first_argmin_spec {α : Type} (f : α → ℚ) (l : List α) (c : α)
    (h : first_argmin f l = some c) :
    ∃ i : Nat, l[i]? = some c ∧
      (∀ (j : Nat) (x : α), l[j]? = some x → f c ≤ f x) ∧
      (∀ (j : Nat) (x : α), l[j]? = some x → j < i → f c < f x) := by
  induction l generalizing c with
  | nil => simp [first_argmin] at h
  | cons a as ih =>
    cases hrec : first_argmin f as with
    | none =>
      have hnil : as = [] := by
        cases as with
        | nil => rfl
        | cons b bs =>
          obtain ⟨y, hy⟩ := first_argmin_cons_eq_some f b bs
          rw [hy] at hrec
          cases hrec
      subst hnil
      simp only [first_argmin] at h
      obtain rfl : a = c := by
        cases h
        rfl
      refine ⟨0, by simp, ?_, ?_⟩
      · intro j x hj
        cases j with
        | zero =>
          obtain rfl : a = x := by
            simp only [List.getElem?_cons_zero, Option.some.injEq] at hj
            exact hj
          exact le_refl _
        | succ j => simp at hj
      · intro j x hj hlt
        exact absurd hlt (Nat.not_lt_zero j)
    | some b =>
      simp only [first_argmin, hrec] at h
      obtain ⟨i, hi, hmin, hfirst⟩ := ih b hrec
      by_cases hab : f a ≤ f b
      · rw [if_pos hab] at h
        obtain rfl : a = c := by
          cases h
          rfl
        refine ⟨0, by simp, ?_, ?_⟩
        · intro j x hj
          cases j with
          | zero =>
            obtain rfl : a = x := by
              simp only [List.getElem?_cons_zero, Option.some.injEq] at hj
              exact hj
            exact le_refl _
          | succ j =>
            simp only [List.getElem?_cons_succ] at hj
            exact le_trans hab (hmin j x hj)
        · intro j x hj hlt
          exact absurd hlt (Nat.not_lt_zero j)
      · rw [if_neg hab] at h
        obtain rfl : b = c := by
          cases h
          rfl
        have hba : f b < f a := lt_of_not_ge hab
        refine ⟨i + 1, by simpa using hi, ?_, ?_⟩
        · intro j x hj
          cases j with
          | zero =>
            obtain rfl : a = x := by
              simp only [List.getElem?_cons_zero, Option.some.injEq] at hj
              exact hj
            exact le_of_lt hba
          | succ j =>
            simp only [List.getElem?_cons_succ] at hj
            exact hmin j x hj
        · intro j x hj hlt
          cases j with
          | zero =>
            obtain rfl : a = x := by
              simp only [List.getElem?_cons_zero, Option.some.injEq] at hj
              exact hj
            exact hba
          | succ j =>
            simp only [List.getElem?_cons_succ] at hj
            exact hfirst j x hj (by omega)

/-- `_assign_best_available_therapist` (`backend2/crisis_alert_manager.py`)
after the DB queries: an empty candidate list flags the alert for admin
attention and returns no assignment; otherwise score every candidate, sort
by assignment score (stable, ascending) and bind the head of the sorted
list, advancing HIGH/CRITICAL alerts straight to acknowledged. -/
def assign_best_available_therapist (alert : CrisisAlertRec) (analysis : Analysis)
    (available_therapists : List TherapistCandidate) (now : Nat) :
    Option TherapistRec × CrisisAlertRec :=
  if available_therapists.isEmpty then
    (none, { alert with
      response_actions := alert.response_actions ++ ["no_therapists_available"] })
  else
    let f := assignment_score alert.risk_level alert.crisis_type analysis
    match (sort_by_score f available_therapists).head? with
    | none => (none, alert)
    | some best =>
      (some best.therapist,
        { alert with
          assigned_therapist_id := some best.therapist.id
          human_reviewer_id := some best.therapist.id
          status :=
            if alert.risk_level = RiskLevel.HIGH ∨ alert.risk_level = RiskLevel.CRITICAL
            then AlertStatus.acknowledged else AlertStatus.pending
          acknowledged_at :=
            if alert.risk_level = RiskLevel.HIGH ∨ alert.risk_level = RiskLevel.CRITICAL
            then some now else alert.acknowledged_at
          response_actions := alert.response_actions ++
            ["auto_assigned_at", "assigned_therapist_id", "therapist_name",
             "therapist_role", "assignment_reason"] })

/-- C7: with an empty candidate set the assignment step returns no
responder (the alert's assigned id stays null), raises nothing, and
records the administrative-attention flag in `response_actions`. -/
theorem empty_candidates_unassigned (alert : CrisisAlertRec) (analysis : Analysis)
    (now : Nat) (h : alert.assigned_therapist_id = none) :
    (assign_best_available_therapist alert analysis [] now).1 = none ∧
    (assign_best_available_therapist alert analysis [] now).2.assigned_therapist_id
      = none ∧
    "no_therapists_available" ∈
      (assign_best_available_therapist alert analysis [] now).2.response_actions := by
  unfold assign_best_available_therapist
  refine ⟨rfl, h, ?_⟩
  simp

/-- A pending alert with no responder bound yet. -/
def unassigned_pending_alert : CrisisAlertRec :=
  { crisis_type := CrisisType.ANXIETY_PANIC
    risk_level := RiskLevel.MEDIUM
    status := AlertStatus.pending
    assigned_therapist_id := none
    human_reviewer_id := none
    acknowledged_at := none
    resolved_at := none
    resolution_notes := none
    escalated_to_human := false
    response_actions := [] }

/-- C7 at a concrete alert with an empty candidate list. -/
theorem empty_candidates_unassigned_witness :
    (assign_best_available_therapist unassigned_pending_alert calm_analysis [] 0).1
      = none ∧
    (assign_best_available_therapist unassigned_pending_alert calm_analysis [] 0).2.assigned_therapist_id
      = none ∧
    "no_therapists_available" ∈
      (assign_best_available_therapist unassigned_pending_alert calm_analysis [] 0).2.response_actions :=
  empty_candidates_unassigned unassigned_pending_alert calm_analysis 0 rfl

/-- C4: on any non-empty candidate list the engine computes
`workload = active_crisis_count * 2 + active_session_count` and
`assignment_score = workload − specialization_score × role_priority`, and
assigns the candidate with the minimal assignment score; every candidate
earlier in the input order than the selected one has a strictly larger
score, so ties go to the first candidate encountered and the selection is
deterministic. -/
theorem assignment_picks_first_minimum (alert : CrisisAlertRec) (analysis : Analysis)
    (c : TherapistCandidate) (rest : List TherapistCandidate) (now : Nat) :
    ∃ (best : TherapistCandidate) (i : Nat),
      (assign_best_available_therapist alert analysis (c :: rest) now).1 =
        some best.therapist ∧
      (c :: rest)[i]? = some best ∧
      (∀ (j : Nat) (x : TherapistCandidate), (c :: rest)[j]? = some x →
        assignment_score alert.risk_level alert.crisis_type analysis best ≤
          assignment_score alert.risk_level alert.crisis_type analysis x) ∧
      (∀ (j : Nat) (x : TherapistCandidate), (c :: rest)[j]? = some x → j < i →
        assignment_score alert.risk_level alert.crisis_type analysis best <
          assignment_score alert.risk_level alert.crisis_type analysis x) ∧
      assignment_score alert.risk_level alert.crisis_type analysis best =
        (total_workload best : ℚ) -
          calculate_specialization_match best.therapist alert.crisis_type analysis *
            (role_priority alert.risk_level best.therapist.role : ℚ) ∧
      total_workload best = best.active_crisis_count * 2 + best.active_session_count := by
  obtain ⟨b, hb⟩ :=
    first_argmin_cons_eq_some
      (assignment_score alert.risk_level alert.crisis_type analysis) c rest
  obtain ⟨i, hi, hmin, hfirst⟩ := first_argmin_spec _ _ b hb
  refine ⟨b, i, ?_, hi, hmin, hfirst, rfl, rfl⟩
  unfold assign_best_available_therapist
  rw [if_neg (by simp)]
  simp only [sort_head_eq_first_argmin, hb]

end TheraSage
